import Mathlib

/-!
# U-Download Content Pack Installer — verification development

Shallow embedding of the content-pack installer subsystem of U-Download.
The presentation layer (React components `ContentDownloadModal` in
`src/unnamed/part_002` and `ContentSettingsPanel` in
`src/src/ContentSettingsPanel.jsx`) is embedded directly from the JavaScript
source.  The backend pipeline (Download Engine, Integrity Verifier,
Extractor, Installation State Store) is a Tauri/Rust backend whose source is
not part of the available tree; those components are modelled from the
specification text, and every such definition carries a doc comment starting
with `Modelled from the spec:`.
-/

namespace UDownload

/-! ## Presentation-layer embeddings (from the JSX source) -/

/-- The `DownloadProgress` payload delivered with `content-download-progress`
events, as consumed by the presentation layer (spec §3; fields read by both
components). -/
structure DownloadProgress where
  pack_id : String
  status : String
  phase : String
  percentage : Nat
  bytes_downloaded : Nat
  total_bytes : Nat
  speed_formatted : String
  eta : String
deriving DecidableEq, Repr

/-- The literal phase-formatting table of `formatPhase` in
`ContentDownloadModal` (`src/unnamed/part_002` lines 102–114): the object
literal `phases`. -/
def modalPhaseTable : List (String × String) :=
  [("preparing", "Preparing download..."),
   ("downloading", "Downloading content..."),
   ("verifying", "Verifying checksums..."),
   ("signaturecheck", "Verifying signatures..."),
   ("extracting", "Extracting files..."),
   ("installing", "Installing content..."),
   ("cleanup", "Cleaning up..."),
   ("complete", "Complete!")]

/-- `formatPhase` from `ContentDownloadModal`: `return phases[phase] || phase`
— a key present in the table yields its (non-empty, hence truthy) label, any
other value is passed through unchanged. -/
def formatPhase (phase : String) : String :=
  match modalPhaseTable.lookup phase with
  | some label => label
  | none => phase

/-- `formatBytes` as defined in `ContentDownloadModal`
(`src/unnamed/part_002` lines 94–100).  JavaScript floating-point operations
are modelled over exact arithmetic: `Math.floor(Math.log(bytes)/Math.log(k))`
for a positive integer is `Nat.log k`, and
`parseFloat(x.toFixed(1))` is rounding to the nearest tenth (half away from
zero; the inputs are non-negative) followed by dropping a zero fractional
digit.  `sizes[i]` out of range is the JavaScript `undefined`. -/
def formatBytes_modal (bytes : Nat) : String :=
  if bytes = 0 then "0 B"
  else
    let k : Nat := 1024
    let sizes := ["B", "KB", "MB", "GB"]
    let i := Nat.log k bytes
    let tenths := (20 * bytes + k ^ i) / (2 * k ^ i)
    let numStr :=
      if tenths % 10 = 0 then toString (tenths / 10)
      else toString (tenths / 10) ++ "." ++ toString (tenths % 10)
    numStr ++ " " ++ sizes.getD i "undefined"

/-- `formatBytes` as defined independently in `ContentSettingsPanel`
(`src/src/ContentSettingsPanel.jsx` lines 75–81); the JavaScript body is
character-for-character the same as the modal's, and it is embedded here
separately under the same conventions. -/
def formatBytes_panel (bytes : Nat) : String :=
  if bytes = 0 then "0 B"
  else
    let k : Nat := 1024
    let sizes := ["B", "KB", "MB", "GB"]
    let i := Nat.log k bytes
    let tenths := (20 * bytes + k ^ i) / (2 * k ^ i)
    let numStr :=
      if tenths % 10 = 0 then toString (tenths / 10)
      else toString (tenths / 10) ++ "." ++ toString (tenths % 10)
    numStr ++ " " ++ sizes.getD i "undefined"

/-- The response of the `check_content_status` command as read by
`ContentSettingsPanel`: only the `installation_status` map matters for
`getPackStatus`; it is a string-keyed map `pack_id -> status`, possibly
absent (`!contentStatus?.installation_status`). -/
structure ContentStatus where
  installation_status : Option (List (String × String))
deriving Repr

/-- `getPackStatus` from `ContentSettingsPanel` (lines 83–86):
`if (!contentStatus?.installation_status) return 'unknown';
 return contentStatus.installation_status[packId] || 'not_installed';`
A present-but-falsy (empty-string) entry also falls back to
`'not_installed'`, matching the `||`. -/
def getPackStatus (contentStatus : Option ContentStatus) (packId : String) : String :=
  match contentStatus with
  | none => "unknown"
  | some cs =>
    match cs.installation_status with
    | none => "unknown"
    | some m =>
      match m.lookup packId with
      | none => "not_installed"
      | some v => if v = "" then "not_installed" else v

/-- The `disabled` expression of the Pause button in `ContentDownloadModal`
(line 282): `downloadProgress?.status !== 'active'`.  When
`downloadProgress` is `null` the optional chain yields `undefined`, which is
`!== 'active'`, so the button is disabled. -/
def modalPauseDisabled (downloadProgress : Option DownloadProgress) : Bool :=
  match downloadProgress with
  | none => true
  | some dp => dp.status != "active"

/-- The `disabled` expression of the Pause button in `ContentSettingsPanel`
(line 267): `progress.status !== 'active'` (rendered only when `progress`
is non-null). -/
def panelPauseDisabled (progress : DownloadProgress) : Bool :=
  progress.status != "active"

/-- The `content-download-complete` handler of `ContentSettingsPanel`
(lines 30–37): `const updated = { ...prev }; delete updated[pack_id];
return updated;` — the per-pack progress map (a string-keyed JavaScript
object, embedded as a partial map) with exactly the completed pack's entry
removed. -/
def panelOnComplete (pack_id : String)
    (prev : String → Option DownloadProgress) : String → Option DownloadProgress :=
  fun q => if q = pack_id then none else prev q

/-- The local UI state of `ContentDownloadModal` touched by its
`content-download-error` listener. -/
structure ModalUI where
  isDownloading : Bool
  error : Option String
deriving DecidableEq, Repr

/-- The `content-download-error` handler of `ContentDownloadModal`
(lines 36–39): `setIsDownloading(false);
setError(event.payload.error_message || 'Download failed');` — the absent or
empty (falsy) message is replaced by the fallback text, and the stored
error is rendered by the component whenever it is truthy. -/
def modalOnError (error_message : String) (u : ModalUI) : ModalUI :=
  { u with
    isDownloading := false
    error := some (if error_message = "" then "Download failed" else error_message) }

/-! ## Spec-modelled backend: data model (spec §3, §4.2–§4.5, §7)

The Rust backend implementing the pipeline is not part of the available
source tree; the definitions below are modelled from the specification. -/

/-- Modelled from the spec: the `InstallationRecord.status` values
(spec §3): `not_installed | downloading | installed | corrupted`. -/
inductive RecStatus
  | not_installed
  | downloading
  | installed
  | corrupted
deriving DecidableEq, Repr

/-- Modelled from the spec: the `DownloadProgress.status` values
(spec §3): `queued | active | paused | cancelled`. -/
inductive DlStatus
  | queued
  | active
  | paused
  | cancelled
deriving DecidableEq, Repr

/-- Modelled from the spec: pipeline phases.  Spec §3 lists
`preparing, downloading, verifying, signaturecheck, extracting, installing,
cleanup, complete`; spec §4.2 additionally has "on exhausting retries, phase
becomes `download_error`" and the §4.5 state machine routes
"any phase → `download_error`". -/
inductive Phase
  | preparing
  | downloading
  | verifying
  | signaturecheck
  | extracting
  | installing
  | cleanup
  | complete
  | download_error
deriving DecidableEq, Repr

/-- The string under which each phase appears in a `DownloadProgress`
payload (the keys of the modal's phase table, plus `download_error`). -/
def Phase.toStr : Phase → String
  | .preparing => "preparing"
  | .downloading => "downloading"
  | .verifying => "verifying"
  | .signaturecheck => "signaturecheck"
  | .extracting => "extracting"
  | .installing => "installing"
  | .cleanup => "cleanup"
  | .complete => "complete"
  | .download_error => "download_error"

/-- Modelled from the spec: `PlatformArtifact` (spec §3) — the digest and a
downloaded blob are both modelled as `Nat`. -/
structure PlatformArtifact where
  platform_id : String
  url : String
  compressed_size : Nat
  checksum : Nat
  signature : Option Nat
deriving DecidableEq, Repr

/-- Modelled from the spec: the Integrity Verifier "computes the checksum
over the full byte stream" (spec §4.3); blobs being opaque `Nat`s, the
digest of a blob is the blob itself. -/
def computeChecksum (blob : Nat) : Nat := blob

/-- Modelled from the spec: events emitted to the presentation layer
(spec §6): `content-download-progress` (with the `DownloadProgress` fields
the claims read: phase and percentage), `content-download-complete`
(`{ pack_id }`), `content-download-error`
(`{ pack_id, error_message }`). -/
inductive Event
  | progress (pack_id : String) (phase : String) (percentage : Nat)
  | complete (pack_id : String)
  | error (pack_id : String) (error_message : String)
deriving DecidableEq, Repr

/-- Whether an event is a `content-download-error` event. -/
def Event.isError : Event → Bool
  | .error _ _ => true
  | _ => false

/-- The phase carried by a `content-download-progress` event, if any. -/
def Event.phaseOf : Event → Option String
  | .progress _ ph _ => some ph
  | _ => none

/-- A `content-download-progress` event for phase `ph`. -/
def progressEv (pack_id : String) (ph : Phase) (percentage : Nat) : Event :=
  .progress pack_id ph.toStr percentage

/-! ## Spec-modelled backend: one pipeline run (spec §4.2–§4.5, §7) -/

/-- Modelled from the spec: the per-pack on-disk and durable state the
pipeline mutates — the `InstallationRecord` status (spec §3/§4.5), the
downloaded artifact, the staging directory, and the install path contents
(spec §4.4). -/
structure PackState where
  record : RecStatus
  downloaded : Option Nat
  staging : Bool
  installPath : Option Nat
deriving DecidableEq, Repr

/-- Modelled from the spec: the environment one pipeline run faces —
what blob the network delivers, whether transient network failures exhaust
the bounded retries (spec §4.2), whether extraction fails (spec §4.4), and
the phase (if any) at which the user cancels (spec §4.2 `cancel`). -/
structure Env where
  blob : Nat
  netFailsForever : Bool
  extractFails : Bool
  cancelAt : Option Phase
deriving DecidableEq, Repr

/-- Modelled from the spec: cancellation "aborts the transfer, deletes the
partial artifact and any staging data, transitions the InstallationRecord
back to `not_installed`" (spec §4.2); `CancelledError` is "not a failure …
results in clean `not_installed` state, not an error event" (spec §7). -/
def cancelCleanup (s : PackState) : PackState :=
  { s with downloaded := none, staging := false, record := .not_installed }

/-- Modelled from the spec: one run of a pack's pipeline (spec §4.2–§4.5),
phases strictly in sequence (spec §5), each phase entered with a progress
event.  Cancellation is observed at the entry of the phase named by
`env.cancelAt`.  Retry exhaustion makes the phase `download_error`, emits
one error event and leaves the record at its last-known-good state
(spec §4.2).  A checksum mismatch deletes the artifact and sets the record
to `corrupted`, never `installed` (spec §4.3).  Extraction failure discards
the staging directory, leaves the install path untouched and sets the
record to `corrupted` (spec §4.4, §4.5).  On full success the staging
directory is atomically promoted into the install path, the record becomes
`installed`, and cleanup removes the downloaded archive. -/
def runPipeline (pack_id : String) (art : PlatformArtifact) (env : Env)
    (s₀ : PackState) : PackState × List Event :=
  let evs₀ := [progressEv pack_id .preparing 0]
  if env.cancelAt = some .preparing then (cancelCleanup s₀, evs₀)
  else
    let evs₁ := evs₀ ++ [progressEv pack_id .downloading 0]
    let s₁ : PackState := { s₀ with record := .downloading }
    if env.cancelAt = some .downloading then (cancelCleanup s₁, evs₁)
    else if env.netFailsForever then
      ({ s₁ with record := s₀.record },
       evs₁ ++ [progressEv pack_id .download_error 0,
                .error pack_id "Download failed after maximum retries"])
    else
      let s₂ : PackState := { s₁ with downloaded := some env.blob }
      let evs₂ := evs₁ ++ [progressEv pack_id .verifying 100]
      if env.cancelAt = some .verifying then (cancelCleanup s₂, evs₂)
      else if computeChecksum env.blob ≠ art.checksum then
        ({ s₂ with downloaded := none, record := .corrupted },
         evs₂ ++ [.error pack_id "Checksum mismatch"])
      else
        let evs₃ := evs₂ ++
          (if art.signature.isSome then [progressEv pack_id .signaturecheck 100] else [])
        let s₃ : PackState := { s₂ with staging := true }
        let evs₄ := evs₃ ++ [progressEv pack_id .extracting 0]
        if env.cancelAt = some .extracting then (cancelCleanup s₃, evs₄)
        else if env.extractFails then
          ({ s₃ with staging := false, record := .corrupted },
           evs₄ ++ [.error pack_id "Extraction failed"])
        else
          ({ s₃ with installPath := some env.blob, staging := false,
                     downloaded := none, record := .installed },
           evs₄ ++ [progressEv pack_id .installing 100,
                    progressEv pack_id .cleanup 100,
                    progressEv pack_id .complete 100,
                    .complete pack_id])

/-- Modelled from the spec: an environment under which the run succeeds —
the network delivers a blob matching the recorded checksum, retries are not
exhausted, extraction succeeds, the user does not cancel. -/
def Env.good (env : Env) (art : PlatformArtifact) : Prop :=
  env.netFailsForever = false ∧ env.extractFails = false ∧
  env.cancelAt = none ∧ computeChecksum env.blob = art.checksum

instance (env : Env) (art : PlatformArtifact) : Decidable (env.good art) := by
  unfold Env.good; infer_instance

/-- Modelled from the spec: an environment under which the run fails
fatally (non-transient, non-cancellation — spec §7): retries exhausted, a
checksum mismatch, or an extraction failure, with no user cancellation. -/
def Env.fatal (env : Env) (art : PlatformArtifact) : Prop :=
  env.cancelAt = none ∧
  (env.netFailsForever = true ∨ computeChecksum env.blob ≠ art.checksum ∨
   env.extractFails = true)

instance (env : Env) (art : PlatformArtifact) : Decidable (env.fatal art) := by
  unfold Env.fatal; infer_instance

/-! ## Spec-modelled Extractor, small-step (spec §4.4) -/

/-- Modelled from the spec: an installed artifact at the install path —
always a complete, "fully-functional" bundle (its version and content). -/
structure InstalledArtifact where
  version : String
  content : Nat
deriving DecidableEq, Repr

/-- Modelled from the spec: the staging directory — a partially extracted
copy of an artifact, `extracted` of `total` entries written so far. -/
structure Staging where
  extracted : Nat
  total : Nat
  artifact : InstalledArtifact
deriving DecidableEq, Repr

/-- Modelled from the spec: what a reader of the filesystem can observe —
the install path contents and the (distinct) staging directory
(spec §4.4: "a staging directory distinct from the final install
directory"). -/
structure Disk where
  installPath : Option InstalledArtifact
  staging : Option Staging
deriving DecidableEq, Repr

/-- Modelled from the spec: the individual steps of an extraction run
(spec §4.4): create the staging directory for an artifact, stream one more
entry into it, fail mid-extraction (the staging directory is discarded),
or — only once every entry is staged — atomically promote the staging
directory into the install path by a single rename/swap. -/
inductive ExtractOp
  | beginStaging (a : InstalledArtifact) (total : Nat)
  | extractEntry
  | fail
  | promote
deriving DecidableEq, Repr

/-- Modelled from the spec: one extractor step on the observable disk.
The install path is written by `promote` alone, and `promote` installs the
staged artifact wholesale, only when staging is complete; `fail` discards
the staging directory and touches nothing else. -/
def extractorStep (d : Disk) : ExtractOp → Disk
  | .beginStaging a total => { d with staging := some ⟨0, total, a⟩ }
  | .extractEntry =>
    match d.staging with
    | some s => { d with staging := some { s with extracted := min (s.extracted + 1) s.total } }
    | none => d
  | .fail => { d with staging := none }
  | .promote =>
    match d.staging with
    | some s =>
      if s.extracted = s.total then { installPath := some s.artifact, staging := none }
      else d
    | none => d

/-- The disk after a sequence of extractor steps. -/
def extractorRun (d : Disk) (ops : List ExtractOp) : Disk :=
  ops.foldl extractorStep d

/-! ## Spec-modelled Download Engine (spec §4.2) -/

/-- Modelled from the spec: the Download Engine state for one pack —
whether a pipeline exists and its `DownloadProgress.status`, the bytes
durably written so far, and the artifact's total byte count. -/
structure EngineState where
  pipeline : Option DlStatus
  bytes : Nat
  total : Nat
deriving DecidableEq, Repr

/-- The percentage the engine reports: bytes downloaded over total, scaled
to 0–100 (0 when the total is unknown/zero). -/
def EngineState.pct (s : EngineState) : Nat :=
  if s.total = 0 then 0 else s.bytes * 100 / s.total

/-- Modelled from the spec: stimuli the engine reacts to during the
`downloading` phase (spec §4.2): a `start` command (with the artifact's
size), the arrival of a chunk of `n` bytes, a transient network failure
(retried with backoff, "without resetting progress already durably
written"), and a `pause` command. -/
inductive EngineOp
  | start (total : Nat)
  | chunk (n : Nat)
  | netRetry
  | pause
deriving DecidableEq, Repr

/-- Modelled from the spec: the result of a `pause` command — either the
transfer was suspended, or the reported (non-fatal) no-op when the pack was
not `active` (spec §4.2: "No-op (reported, not fatal) if not active"). -/
inductive PauseResult
  | suspended
  | noopNotActive
deriving DecidableEq, Repr

/-- Modelled from the spec: `pause(pack_id)` — "only valid while `active`;
suspends the transfer, preserves partial bytes on disk, transitions to
`paused`"; otherwise a reported no-op that changes nothing. -/
def pauseCmd (s : EngineState) : EngineState × PauseResult :=
  if s.pipeline = some .active then
    ({ s with pipeline := some .paused }, .suspended)
  else (s, .noopNotActive)

/-- Modelled from the spec: one engine step, returning the new state and
the percentage carried by the progress event it emits, if any.
`start` attaches to an `active` pipeline (idempotent), resumes a `paused`
one from its last acknowledged byte offset, and otherwise creates a fresh
pipeline from byte 0 (spec §4.2).  A chunk extends the durably written
bytes (never beyond the total) while `active` and reports the new
percentage; a transient network failure never resets progress; `pause`
suspends an active transfer. -/
def engineStep (s : EngineState) : EngineOp → EngineState × Option Nat
  | .start t =>
    match s.pipeline with
    | some .active => (s, none)
    | some .paused => ({ s with pipeline := some .active }, none)
    | _ => ({ pipeline := some .active, bytes := 0, total := t }, some 0)
  | .chunk n =>
    if s.pipeline = some .active then
      let s' : EngineState := { s with bytes := min (s.bytes + n) s.total }
      (s', some s'.pct)
    else (s, none)
  | .netRetry => (s, none)
  | .pause => ((pauseCmd s).1, none)

/-- The engine state and the percentages of all emitted progress events
over a sequence of stimuli. -/
def engineRun (s : EngineState) : List EngineOp → EngineState × List Nat
  | [] => (s, [])
  | op :: ops =>
    let (s', e) := engineStep s op
    let (sf, tr) := engineRun s' ops
    (sf, e.toList ++ tr)

/-! ## Concrete sample values used by witnesses -/

/-- A sample `linux-x64` artifact with recorded checksum `42`. -/
def art₀ : PlatformArtifact :=
  ⟨"linux-x64", "https://cdn.example/core-binaries.tar.gz", 200000000, 42, none⟩

/-- A pack with nothing on disk yet. -/
def packState₀ : PackState := ⟨.not_installed, none, false, none⟩

/-- An environment whose every retry attempt fails. -/
def envNetFail : Env := ⟨42, true, false, none⟩

/-- An environment delivering a blob whose digest does not match `art₀`. -/
def envBadSum : Env := ⟨7, false, false, none⟩

/-- An environment delivering the right blob with no failures. -/
def envGood : Env := ⟨42, false, false, none⟩

/-- A sample `DownloadProgress` payload with an `active` status. -/
def sampleProgress : DownloadProgress :=
  ⟨"core-binaries", "active", "downloading", 42, 100000000, 200000000, "5.0 MB/s", "20s"⟩

/-! ## Claims -/

/-- **C9** — The byte-formatting helpers defined independently in the
content download modal (`src/unnamed/part_002` lines 94–100) and in the
content settings panel (`src/src/ContentSettingsPanel.jsx` lines 75–81) are
extensionally equal: for every input they return the same string. -/
theorem formatBytes_modal_panel_agree :
    ∀ bytes : Nat, formatBytes_modal bytes = formatBytes_panel bytes :=
  fun _ => rfl

/-- **C10** — The settings panel's `content-download-complete` handler
removes only the completed pack's entry from the per-pack progress map; the
entry of every other pack id is left unchanged. -/
theorem panelOnComplete_frame (pack_id : String)
    (prev : String → Option DownloadProgress) :
    panelOnComplete pack_id prev pack_id = none ∧
    ∀ q : String, q ≠ pack_id → panelOnComplete pack_id prev q = prev q := by
  refine ⟨by simp [panelOnComplete], fun q hq => ?_⟩
  simp [panelOnComplete, hq]

/-- Witness for C10 at a concrete map and pack id. -/
theorem panelOnComplete_frame_witness :
    panelOnComplete "core-binaries" (fun _ => some sampleProgress) "core-binaries" = none ∧
    panelOnComplete "core-binaries" (fun _ => some sampleProgress) "audio-pack" =
      (fun _ => some sampleProgress) "audio-pack" :=
  ⟨(panelOnComplete_frame "core-binaries" (fun _ => some sampleProgress)).1,
   (panelOnComplete_frame "core-binaries" (fun _ => some sampleProgress)).2
     "audio-pack" (by decide)⟩

/-- **C4** — Every pack id with no entry in the installation status map
returned by `check_content_status` is reported `not_installed` by
`getPackStatus`. -/
theorem getPackStatus_default (m : List (String × String)) (packId : String)
    (h : m.lookup packId = none) :
    getPackStatus (some ⟨some m⟩) packId = "not_installed" := by
  simp [getPackStatus, h]

/-- Witness for C4: a pack id absent from a concrete status map. -/
theorem getPackStatus_default_witness :
    getPackStatus (some ⟨some [("core-binaries", "installed")]⟩) "audio-pack" =
      "not_installed" :=
  getPackStatus_default [("core-binaries", "installed")] "audio-pack" (by decide)

/-- **C5** — The Pause control is disabled in both components unless the
most recently reported status is exactly `"active"` (so
`pause_content_download` is never invoked otherwise), and the engine's
`pause` command on a pack that is not `active` is a reported, non-fatal
no-op that leaves the state unchanged. -/
theorem pause_only_when_active :
    (∀ dp : Option DownloadProgress, modalPauseDisabled dp = false →
       ∃ d, dp = some d ∧ d.status = "active") ∧
    (∀ p : DownloadProgress, panelPauseDisabled p = false → p.status = "active") ∧
    (∀ s : EngineState, s.pipeline ≠ some .active →
       pauseCmd s = (s, .noopNotActive)) := by
  refine ⟨fun dp h => ?_, fun p h => ?_, fun s h => ?_⟩
  · cases dp with
    | none => simp [modalPauseDisabled] at h
    | some d =>
      refine ⟨d, rfl, ?_⟩
      simpa [modalPauseDisabled] using h
  · simpa [panelPauseDisabled] using h
  · simp [pauseCmd, h]

/-- Witness for C5: the enabled Pause button at an `active` payload, and the
no-op `pause` on an engine state with no pipeline. -/
theorem pause_only_when_active_witness :
    (∃ d, (some sampleProgress : Option DownloadProgress) = some d ∧
       d.status = "active") ∧
    pauseCmd ⟨none, 0, 200000000⟩ = (⟨none, 0, 200000000⟩, .noopNotActive) :=
  ⟨pause_only_when_active.1 (some sampleProgress) (by decide),
   pause_only_when_active.2.2 ⟨none, 0, 200000000⟩ (by decide)⟩

/-- **C2** — A fully downloaded artifact whose computed checksum differs
from the recorded one yields the checksum error event, has its downloaded
bytes deleted, and leaves the record `corrupted` — never `installed`; a
subsequent retry against a fixed source transitions the pack to
`installed`.  (Spec-modelled backend.) -/
theorem checksum_mismatch_corrupted (pack_id : String) (art : PlatformArtifact)
    (env env' : Env) (s₀ : PackState)
    (hnet : env.netFailsForever = false)
    (hcan : env.cancelAt = none)
    (hmm : computeChecksum env.blob ≠ art.checksum)
    (hgood : env'.good art) :
    (runPipeline pack_id art env s₀).1.record = .corrupted ∧
    (runPipeline pack_id art env s₀).1.record ≠ .installed ∧
    (runPipeline pack_id art env s₀).1.downloaded = none ∧
    Event.error pack_id "Checksum mismatch" ∈ (runPipeline pack_id art env s₀).2 ∧
    (runPipeline pack_id art env' (runPipeline pack_id art env s₀).1).1.record =
      .installed := by
  obtain ⟨h1, h2, h3, h4⟩ := hgood
  simp [runPipeline, hnet, hcan, hmm, h1, h2, h3, h4]

/-- Witness for C2: the sample artifact, a mismatching blob, then the
fixed source. -/
theorem checksum_mismatch_corrupted_witness :
    (runPipeline "core-binaries" art₀ envBadSum packState₀).1.record = .corrupted ∧
    (runPipeline "core-binaries" art₀ envBadSum packState₀).1.record ≠ .installed ∧
    (runPipeline "core-binaries" art₀ envBadSum packState₀).1.downloaded = none ∧
    Event.error "core-binaries" "Checksum mismatch" ∈
      (runPipeline "core-binaries" art₀ envBadSum packState₀).2 ∧
    (runPipeline "core-binaries" art₀ envGood
        (runPipeline "core-binaries" art₀ envBadSum packState₀).1).1.record =
      .installed :=
  checksum_mismatch_corrupted "core-binaries" art₀ envBadSum envGood packState₀
    (by decide) (by decide) (by decide) (by decide)

/-- **C6** — Cancelling the pipeline at any non-terminal phase (any of
`preparing`, `downloading`, `verifying`, `extracting`) deletes the partial
artifact and all staging data, resets the record to `not_installed`, and
emits no error event.  (Spec-modelled backend.) -/
theorem cancel_clean (pack_id : String) (art : PlatformArtifact) (env : Env)
    (s₀ : PackState) (ph : Phase)
    (hc : env.cancelAt = some ph)
    (hph : ph = .preparing ∨ ph = .downloading ∨ ph = .verifying ∨
      ph = .extracting)
    (hnet : env.netFailsForever = false)
    (hsum : computeChecksum env.blob = art.checksum) :
    (runPipeline pack_id art env s₀).1.downloaded = none ∧
    (runPipeline pack_id art env s₀).1.staging = false ∧
    (runPipeline pack_id art env s₀).1.record = .not_installed ∧
    (runPipeline pack_id art env s₀).2.filter Event.isError = [] := by
  rcases hph with h | h | h | h <;> subst h <;>
    simp [runPipeline, hc, hnet, hsum, cancelCleanup, progressEv, Event.isError,
      List.filter_append, apply_ite (List.filter Event.isError)]

/-- Witness for C6: cancelling the sample pack upon entering extraction. -/
theorem cancel_clean_witness :
    (runPipeline "core-binaries" art₀ ⟨42, false, false, some .extracting⟩
        packState₀).1.downloaded = none ∧
    (runPipeline "core-binaries" art₀ ⟨42, false, false, some .extracting⟩
        packState₀).1.staging = false ∧
    (runPipeline "core-binaries" art₀ ⟨42, false, false, some .extracting⟩
        packState₀).1.record = .not_installed ∧
    (runPipeline "core-binaries" art₀ ⟨42, false, false, some .extracting⟩
        packState₀).2.filter Event.isError = [] :=
  cancel_clean "core-binaries" art₀ ⟨42, false, false, some .extracting⟩
    packState₀ .extracting (by decide) (by decide) (by decide) (by decide)

/-- **C8** — Every fatal (non-transient, non-cancellation) failure of a run
is surfaced via exactly one `content-download-error` event, whose payload
carries the pack id and a non-empty human-readable message, and the modal's
error handler stores that message for display (and stops showing the
download as running).  (Spec-modelled backend; handler from the source.) -/
theorem fatal_error_once (pack_id : String) (art : PlatformArtifact)
    (env : Env) (s₀ : PackState) (u : ModalUI)
    (hf : env.fatal art) :
    ((runPipeline pack_id art env s₀).2.filter Event.isError).length = 1 ∧
    ∃ msg, Event.error pack_id msg ∈ (runPipeline pack_id art env s₀).2 ∧
      msg ≠ "" ∧ (modalOnError msg u).error = some msg ∧
      (modalOnError msg u).isDownloading = false := by
  obtain ⟨hcan, hor⟩ := hf
  by_cases hnf : env.netFailsForever = true
  · refine ⟨?_, "Download failed after maximum retries", ?_, by decide, ?_, rfl⟩ <;>
      simp [runPipeline, hcan, hnf, progressEv, Event.isError, modalOnError,
        List.filter_append]
  · have hnf' : env.netFailsForever = false := by
      simpa using hnf
    by_cases hcs : computeChecksum env.blob = art.checksum
    · have hex : env.extractFails = true := by
        rcases hor with h | h | h
        · exact absurd h hnf
        · exact absurd hcs h
        · exact h
      refine ⟨?_, "Extraction failed", ?_, by decide, ?_, rfl⟩ <;>
        simp [runPipeline, hcan, hnf', hcs, hex, progressEv, Event.isError,
          modalOnError, List.filter_append, apply_ite (List.filter Event.isError)]
    · refine ⟨?_, "Checksum mismatch", ?_, by decide, ?_, rfl⟩ <;>
        simp [runPipeline, hcan, hnf', hcs, progressEv, Event.isError,
          modalOnError, List.filter_append]

/-- Witness for C8: the retries-exhausted run of the sample pack. -/
theorem fatal_error_once_witness :
    ((runPipeline "core-binaries" art₀ envNetFail packState₀).2.filter
        Event.isError).length = 1 ∧
    ∃ msg, Event.error "core-binaries" msg ∈
        (runPipeline "core-binaries" art₀ envNetFail packState₀).2 ∧
      msg ≠ "" ∧ (modalOnError msg ⟨true, none⟩).error = some msg ∧
      (modalOnError msg ⟨true, none⟩).isDownloading = false :=
  fatal_error_once "core-binaries" art₀ envNetFail packState₀ ⟨true, none⟩
    (by decide)

/-- The nine phase strings the pipeline can put in a delivered
`DownloadProgress`: the eight of spec §3 plus `download_error`
(spec §4.2, §4.5). -/
def pipelinePhaseStrings : List String :=
  ["preparing", "downloading", "verifying", "signaturecheck", "extracting",
   "installing", "cleanup", "complete", "download_error"]

/-- Every phase's string form is one of the nine. -/
theorem toStr_mem_pipelinePhaseStrings (ph : Phase) :
    ph.toStr ∈ pipelinePhaseStrings := by
  cases ph <;> simp [Phase.toStr, pipelinePhaseStrings]

/-- **C3, counterexample** — On a run that exhausts its retries, the
pipeline delivers a progress event whose phase is `download_error`, which is
not among the eight keys of the modal's phase-formatting table; the table is
therefore not exhaustive over every phase the pipeline can emit (the
formatter passes the value through unchanged). -/
theorem phase_set_counterexample :
    Event.progress "core-binaries" "download_error" 0 ∈
      (runPipeline "core-binaries" art₀ envNetFail packState₀).2 ∧
    "download_error" ∉ modalPhaseTable.map Prod.fst ∧
    formatPhase "download_error" = "download_error" := by
  refine ⟨?_, by decide, by decide⟩
  simp [runPipeline, envNetFail, progressEv, Phase.toStr]

/-- An event whose phase field, if it has one, is one of the nine phase
strings. -/
def evPhaseOk (ev : Event) : Prop :=
  ∀ ph, Event.phaseOf ev = some ph → ph ∈ pipelinePhaseStrings

/-- A progress event for any `Phase` carries one of the nine strings. -/
theorem evPhaseOk_progressEv (pid : String) (ph : Phase) (p : Nat) :
    evPhaseOk (progressEv pid ph p) := by
  intro s hs
  simp only [progressEv, Event.phaseOf, Option.some.injEq] at hs
  subst hs
  exact toStr_mem_pipelinePhaseStrings ph

/-- Error events carry no phase. -/
theorem evPhaseOk_error (pid msg : String) : evPhaseOk (.error pid msg) := by
  intro s hs
  simp [Event.phaseOf] at hs

/-- Completion events carry no phase. -/
theorem evPhaseOk_complete (pid : String) : evPhaseOk (.complete pid) := by
  intro s hs
  simp [Event.phaseOf] at hs

/-- **C3, amended** — Every `DownloadProgress` delivered to the
presentation layer has its phase among the nine strings: the eight of the
modal's phase-formatting table plus `download_error`; the table maps
exactly the eight to human-readable labels, and passes `download_error`
(like any unknown value) through unchanged. -/
theorem phases_exhaustive_amended (pack_id : String) (art : PlatformArtifact)
    (env : Env) (s₀ : PackState) :
    (∀ ev ∈ (runPipeline pack_id art env s₀).2,
      ∀ ph, Event.phaseOf ev = some ph → ph ∈ pipelinePhaseStrings) ∧
    (∀ ph ∈ pipelinePhaseStrings,
      ph ∈ modalPhaseTable.map Prod.fst ∨ ph = "download_error") ∧
    formatPhase "download_error" = "download_error" := by
  refine ⟨?_, by decide, by decide⟩
  suffices h : ∀ ev ∈ (runPipeline pack_id art env s₀).2, evPhaseOk ev by
    exact h
  unfold runPipeline
  split_ifs <;>
    simp [List.mem_append, List.mem_cons, forall_eq_or_imp, forall_eq,
      evPhaseOk_progressEv, evPhaseOk_error, evPhaseOk_complete]

/-- Witness for C3's amended theorem: the first event of the successful
sample run carries the phase `preparing`, one of the nine. -/
theorem phases_exhaustive_amended_witness :
    "preparing" ∈ pipelinePhaseStrings :=
  (phases_exhaustive_amended "core-binaries" art₀ envGood packState₀).1
    (Event.progress "core-binaries" "preparing" 0) (by decide) "preparing" rfl

/-- Invariant of extraction runs re-staging artifact `new` over an install
path holding `old` or already `new`: the install path always holds one of
the two complete artifacts, and anything staged is (a partial copy of)
`new`. -/
theorem extractor_inv (old new : InstalledArtifact) :
    ∀ (ops : List ExtractOp) (d : Disk),
      (d.installPath = some old ∨ d.installPath = some new) →
      (∀ s, d.staging = some s → s.artifact = new) →
      (∀ a t, ExtractOp.beginStaging a t ∈ ops → a = new) →
      ((extractorRun d ops).installPath = some old ∨
        (extractorRun d ops).installPath = some new) ∧
      (∀ s, (extractorRun d ops).staging = some s → s.artifact = new) := by
  intro ops
  induction ops with
  | nil => exact fun d h1 h2 _ => ⟨h1, h2⟩
  | cons op ops ih =>
    intro d h1 h2 hops
    have hops' : ∀ a t, ExtractOp.beginStaging a t ∈ ops → a = new :=
      fun a t hm => hops a t (List.mem_cons_of_mem _ hm)
    have hstep : (extractorStep d op).installPath = some old ∨
        (extractorStep d op).installPath = some new := by
      cases op with
      | beginStaging a t => exact h1
      | extractEntry =>
        cases hst : d.staging <;> simp [extractorStep, hst] <;> exact h1
      | fail => exact h1
      | promote =>
        cases hst : d.staging with
        | none => simpa [extractorStep, hst] using h1
        | some s =>
          by_cases hdone : s.extracted = s.total
          · right
            simp [extractorStep, hst, hdone, h2 s hst]
          · simpa [extractorStep, hst, hdone] using h1
    have hstg : ∀ s, (extractorStep d op).staging = some s → s.artifact = new := by
      cases op with
      | beginStaging a t =>
        intro s hs
        simp only [extractorStep, Option.some.injEq] at hs
        rw [← hs]
        exact hops a t (List.mem_cons_self _ _)
      | extractEntry =>
        intro s hs
        cases hst : d.staging with
        | none => rw [extractorStep] at hs; simp [hst] at hs
        | some s₁ =>
          rw [extractorStep] at hs
          simp only [hst, Option.some.injEq] at hs
          rw [← hs]
          exact h2 s₁ hst
      | fail => intro s hs; simp [extractorStep] at hs
      | promote =>
        intro s hs
        cases hst : d.staging with
        | none => rw [extractorStep] at hs; simp [hst] at hs
        | some s₁ =>
          rw [extractorStep] at hs
          simp only [hst] at hs
          by_cases hdone : s₁.extracted = s₁.total
          · simp [hdone] at hs
          · simp only [hdone, if_false] at hs
            exact h2 s hs
    have : extractorRun d (op :: ops) = extractorRun (extractorStep d op) ops := by
      simp [extractorRun, List.foldl_cons]
    rw [this]
    exact ih (extractorStep d op) hstep hstg hops'

/-- **C1** — Re-installing a pack replaces the previously installed version
atomically: after any sequence of extraction steps that only ever stage the
new artifact, a reader of the install path sees either the old fully
installed artifact or the new one — never a partially-overwritten mixture —
and a failure mid-extraction discards the staging directory while leaving
the install path exactly as it was.  (Spec-modelled Extractor, §4.4.) -/
theorem atomic_promotion (old new : InstalledArtifact) (ops : List ExtractOp)
    (d₀ : Disk)
    (h₀ : d₀.installPath = some old)
    (hs₀ : ∀ s, d₀.staging = some s → s.artifact = new)
    (hops : ∀ a t, ExtractOp.beginStaging a t ∈ ops → a = new) :
    ((extractorRun d₀ ops).installPath = some old ∨
      (extractorRun d₀ ops).installPath = some new) ∧
    (∀ d : Disk, (extractorStep d .fail).staging = none ∧
      (extractorStep d .fail).installPath = d.installPath) :=
  ⟨(extractor_inv old new ops d₀ (Or.inl h₀) hs₀ hops).1,
   fun _ => ⟨rfl, rfl⟩⟩

/-- Witness for C1: staging a new version of `core-binaries` over an
installed old one, extracting both entries, and promoting. -/
theorem atomic_promotion_witness :
    ((extractorRun ⟨some ⟨"1.0.0", 41⟩, none⟩
        [.beginStaging ⟨"1.1.0", 42⟩ 2, .extractEntry, .extractEntry,
         .promote]).installPath = some ⟨"1.0.0", 41⟩ ∨
      (extractorRun ⟨some ⟨"1.0.0", 41⟩, none⟩
        [.beginStaging ⟨"1.1.0", 42⟩ 2, .extractEntry, .extractEntry,
         .promote]).installPath = some ⟨"1.1.0", 42⟩) ∧
    (∀ d : Disk, (extractorStep d .fail).staging = none ∧
      (extractorStep d .fail).installPath = d.installPath) :=
  atomic_promotion ⟨"1.0.0", 41⟩ ⟨"1.1.0", 42⟩
    [.beginStaging ⟨"1.1.0", 42⟩ 2, .extractEntry, .extractEntry, .promote]
    ⟨some ⟨"1.0.0", 41⟩, none⟩ rfl (by simp)
    (by
      intro a t hm
      simp only [List.mem_cons, List.not_mem_nil, or_false] at hm
      rcases hm with h | h | h | h <;> simp_all)

/-- The reported percentage never exceeds 100 while the durably written
bytes stay within the artifact's total. -/
theorem engine_pct_le_100 (s : EngineState) (h : s.bytes ≤ s.total) :
    s.pct ≤ 100 := by
  unfold EngineState.pct
  by_cases h0 : s.total = 0
  · simp [h0]
  · simp only [h0, if_false]
    calc s.bytes * 100 / s.total
        ≤ s.total * 100 / s.total :=
          Nat.div_le_div_right (Nat.mul_le_mul_right _ h)
      _ = 100 := Nat.mul_div_cancel_left 100 (Nat.pos_of_ne_zero h0)

/-- The percentage is monotone in the bytes written, for a fixed total. -/
theorem engine_pct_mono {s s' : EngineState} (hb : s.bytes ≤ s'.bytes)
    (ht : s'.total = s.total) : s.pct ≤ s'.pct := by
  unfold EngineState.pct
  rw [ht]
  by_cases h0 : s.total = 0
  · simp [h0]
  · simp only [h0, if_false]
    exact Nat.div_le_div_right (Nat.mul_le_mul_right _ hb)

/-- Any engine stimulus other than `start` keeps the bytes written
non-decreasing and within the (unchanged) total, and any percentage it
emits is the new state's percentage. -/
theorem engineStep_no_start (s : EngineState) (op : EngineOp)
    (hop : ∀ t, op ≠ .start t) (hbt : s.bytes ≤ s.total) :
    s.bytes ≤ (engineStep s op).1.bytes ∧
    (engineStep s op).1.bytes ≤ (engineStep s op).1.total ∧
    (engineStep s op).1.total = s.total ∧
    ∀ p, (engineStep s op).2 = some p → p = (engineStep s op).1.pct := by
  cases op with
  | start t => exact absurd rfl (hop t)
  | chunk n =>
    by_cases ha : s.pipeline = some .active
    · refine ⟨?_, ?_, ?_, ?_⟩ <;>
        simp [engineStep, ha, hbt, Nat.le_add_right]
    · simp [engineStep, ha, hbt]
  | netRetry => simp [engineStep, hbt]
  | pause =>
    unfold engineStep pauseCmd
    by_cases ha : s.pipeline = some .active <;> simp [ha, hbt]

/-- Unfolding `engineRun` on a cons. -/
theorem engineRun_cons (s : EngineState) (op : EngineOp)
    (ops : List EngineOp) :
    engineRun s (op :: ops) =
      ((engineRun (engineStep s op).1 ops).1,
       (engineStep s op).2.toList ++ (engineRun (engineStep s op).1 ops).2) :=
  rfl

/-- Starting from any percentage bound `q`, a start-free stimulus sequence
emits a non-decreasing percentage trace bounded by 100. -/
theorem engineRun_chain (ops : List EngineOp) :
    ∀ s : EngineState, s.bytes ≤ s.total →
      (∀ t, EngineOp.start t ∉ ops) →
      ∀ q, q ≤ s.pct →
        List.Chain' (· ≤ ·) (q :: (engineRun s ops).2) ∧
        ∀ p ∈ (engineRun s ops).2, p ≤ 100 := by
  induction ops with
  | nil => intro s _ _ q _; simp [engineRun]
  | cons op ops ih =>
    intro s hbt hns q hq
    have hop : ∀ t, op ≠ EngineOp.start t :=
      fun t h => hns t (h ▸ List.mem_cons_self _ _)
    have hns' : ∀ t, EngineOp.start t ∉ ops :=
      fun t h => hns t (List.mem_cons_of_mem _ h)
    obtain ⟨h1, h2, h3, h4⟩ := engineStep_no_start s op hop hbt
    have hpct : s.pct ≤ (engineStep s op).1.pct := engine_pct_mono h1 h3
    rw [engineRun_cons]
    rcases he : (engineStep s op).2 with _ | p
    · simp only [Option.toList_none, List.nil_append]
      exact ih (engineStep s op).1 h2 hns' q (le_trans hq hpct)
    · have hp : p = (engineStep s op).1.pct := h4 p he
      simp only [Option.toList_some, List.cons_append, List.nil_append]
      obtain ⟨hch, hmem⟩ := ih (engineStep s op).1 h2 hns' p (le_of_eq hp)
      refine ⟨List.chain'_cons.mpr ⟨?_, hch⟩, ?_⟩
      · rw [hp]; exact le_trans hq hpct
      · intro x hx
        rcases List.mem_cons.mp hx with h | h
        · subst h; rw [hp]; exact engine_pct_le_100 _ h2
        · exact hmem x h

/-- **C7** — For a pipeline in its downloading phase, the percentages of
successive `DownloadProgress` events lie in 0–100 and are monotonically
non-decreasing (and start no lower than the state's current percentage);
the percentage strictly decreases across a step only when that step is a
`start` creating a fresh pipeline — a pack that is `active` (attach) or
`paused` (resume) never resets.  (Spec-modelled Download Engine, §4.2.) -/
theorem progress_monotone (ops : List EngineOp) (s₀ : EngineState)
    (hbt : s₀.bytes ≤ s₀.total)
    (hns : ∀ t, EngineOp.start t ∉ ops) :
    (∀ p ∈ (engineRun s₀ ops).2, p ≤ 100) ∧
    List.Chain' (· ≤ ·) (s₀.pct :: (engineRun s₀ ops).2) ∧
    (∀ (s : EngineState) (op : EngineOp), s.bytes ≤ s.total →
      (engineStep s op).1.pct < s.pct →
      ∃ t, op = .start t ∧ s.pipeline ≠ some .active ∧
        s.pipeline ≠ some .paused) := by
  obtain ⟨hch, hmem⟩ := engineRun_chain ops s₀ hbt hns s₀.pct (le_refl _)
  refine ⟨hmem, hch, ?_⟩
  intro s op hbt' hdec
  cases op with
  | start t =>
    cases hp : s.pipeline with
    | none => exact ⟨t, rfl, by simp [hp], by simp [hp]⟩
    | some d =>
      cases d with
      | active => simp [engineStep, hp] at hdec
      | paused => simp [engineStep, hp, EngineState.pct] at hdec
      | queued => exact ⟨t, rfl, by simp [hp], by simp [hp]⟩
      | cancelled => exact ⟨t, rfl, by simp [hp], by simp [hp]⟩
  | chunk n =>
    obtain ⟨h1, _, h3, _⟩ :=
      engineStep_no_start s (.chunk n) (fun t h => EngineOp.noConfusion h) hbt'
    exact absurd hdec (not_lt.mpr (engine_pct_mono h1 h3))
  | netRetry => simp [engineStep] at hdec
  | pause =>
    obtain ⟨h1, _, h3, _⟩ :=
      engineStep_no_start s .pause (fun t h => EngineOp.noConfusion h) hbt'
    exact absurd hdec (not_lt.mpr (engine_pct_mono h1 h3))

/-- Witness for C7: an active transfer of 200 bytes receiving two chunks
around a transient failure, then pausing. -/
theorem progress_monotone_witness :
    (∀ p ∈ (engineRun ⟨some .active, 0, 200⟩
        [.chunk 50, .netRetry, .chunk 100, .pause]).2, p ≤ 100) ∧
    List.Chain' (· ≤ ·) ((⟨some .active, 0, 200⟩ : EngineState).pct ::
      (engineRun ⟨some .active, 0, 200⟩
        [.chunk 50, .netRetry, .chunk 100, .pause]).2) ∧
    (∀ (s : EngineState) (op : EngineOp), s.bytes ≤ s.total →
      (engineStep s op).1.pct < s.pct →
      ∃ t, op = .start t ∧ s.pipeline ≠ some .active ∧
        s.pipeline ≠ some .paused) :=
  progress_monotone [.chunk 50, .netRetry, .chunk 100, .pause]
    ⟨some .active, 0, 200⟩ (by decide) (by intro t ht; simp at ht)

end UDownload
